import Mathlib

/-!
Verification development for the metrics-tui collection core.

The Go source is shallowly embedded: Go maps become association lists with
unique keys, `float64` values that only ever hold exact small quantities are
modelled as rationals, `uint64` counters are naturals with wrap-around
subtraction taken modulo 2^64, and wall-clock instants (`time.Time`) are
rationals measured in seconds, passed explicitly where the Go code calls
`time.Now()`.
-/

set_option autoImplicit false

namespace MetricsTui

/-- Lookup in an association list modelling a Go `map[string]V` read. -/
def lookupKey {β : Type} (l : List (String × β)) (k : String) : Option β :=
  match l with
  | [] => none
  | (k', v) :: rest => if k' = k then some v else lookupKey rest k

/-- Insertion modelling a Go `map[string]V` write `m[k] = v`: the unique
binding for `k` is replaced when present, otherwise the pair is appended. -/
def insertKey {β : Type} (l : List (String × β)) (k : String) (v : β) :
    List (String × β) :=
  match l with
  | [] => [(k, v)]
  | (k', v') :: rest =>
    if k' = k then (k, v) :: rest else (k', v') :: insertKey rest k v

/-- Deletion modelling Go `delete(m, k)`: the unique binding for `k` is
removed when present. -/
def eraseKey {β : Type} (l : List (String × β)) (k : String) :
    List (String × β) :=
  match l with
  | [] => []
  | (k', v') :: rest =>
    if k' = k then rest else (k', v') :: eraseKey rest k

@[simp] theorem lookupKey_nil {β : Type} (k : String) :
    lookupKey ([] : List (String × β)) k = none := rfl

@[simp] theorem lookupKey_cons {β : Type} (k' : String) (v : β)
    (rest : List (String × β)) (k : String) :
    lookupKey ((k', v) :: rest) k =
      if k' = k then some v else lookupKey rest k := rfl

theorem lookupKey_insertKey {β : Type} (l : List (String × β))
    (k k' : String) (v : β) :
    lookupKey (insertKey l k v) k' =
      if k = k' then some v else lookupKey l k' := by
  induction l with
  | nil => simp [insertKey]
  | cons hd tl ih =>
    obtain ⟨k₀, v₀⟩ := hd
    by_cases h₀ : k₀ = k
    · subst h₀
      by_cases h₁ : k₀ = k'
      · subst h₁; simp [insertKey]
      · simp [insertKey, h₁]
    · by_cases h₁ : k₀ = k'
      · subst h₁
        have hne : k ≠ k₀ := fun h => h₀ h.symm
        simp [insertKey, h₀, hne]
      · simp [insertKey, h₀, h₁, ih]

theorem lookupKey_eraseKey_ne {β : Type} (l : List (String × β))
    (k k' : String) (h : k ≠ k') :
    lookupKey (eraseKey l k) k' = lookupKey l k' := by
  induction l with
  | nil => simp [eraseKey]
  | cons hd tl ih =>
    obtain ⟨k₀, v₀⟩ := hd
    by_cases h₀ : k₀ = k
    · subst h₀
      have hne : ¬k₀ = k' := fun hk => h hk
      simp [eraseKey, hne]
    · simp [eraseKey, h₀, ih]

/-! ### Alert engine

Embedding of `AlertManager` and its methods. Severities, the alert record,
threshold pairs and the manager state carry the Go field structure; the
numeric formatting `%.1f` inside `fmt.Sprintf` is abstracted to `toString`
of the rational, which keeps every generated message nonempty exactly as in
the source. -/

/-- Severity enumeration `Info < Warning < Critical` from the source. -/
inductive AlertSeverity where
  | info
  | warning
  | critical
  deriving DecidableEq, Repr

/-- Alert record: one struct per alert, as in the source. -/
structure Alert where
  severity : AlertSeverity
  message : String
  timestamp : ℚ
  triggerTime : ℚ
  value : ℚ
  threshold : ℚ
  metric : String
  deriving DecidableEq, Repr

/-- Threshold pair installed per metric. -/
structure ThresholdConfig where
  warning : ℚ
  critical : ℚ
  deriving DecidableEq, Repr

/-- AlertManager state: active-alert map, threshold map, bounded history. -/
structure AlertManager where
  alerts : List (String × Alert)
  thresholds : List (String × ThresholdConfig)
  history : List Alert
  maxHistory : Nat
  enabled : Bool
  deriving DecidableEq, Repr

/-- Constructor `NewAlertManager`. -/
def NewAlertManager : AlertManager :=
  { alerts := []
    thresholds := []
    history := []
    maxHistory := 100
    enabled := true }

/-- Method `SetThreshold`. -/
def AlertManager.SetThreshold (a : AlertManager) (metric : String)
    (warning critical : ℚ) : AlertManager :=
  { a with thresholds :=
      insertKey a.thresholds metric ⟨warning, critical⟩ }

/-- Message built in the `value >= threshold.Critical` branch of
`CheckValue`; the float formatting is abstracted. -/
def criticalMsg (metric : String) (value threshold : ℚ) : String :=
  metric ++ " critical: " ++ toString value ++
    "% (threshold: " ++ toString threshold ++ "%)"

/-- Message built in the `value >= threshold.Warning` branch of
`CheckValue`; the float formatting is abstracted. -/
def warningMsg (metric : String) (value threshold : ℚ) : String :=
  metric ++ " warning: " ++ toString value ++
    "% (threshold: " ++ toString threshold ++ "%)"

/-- Update performed by the alert-raising branch of `CheckValue` (lines
105–120 of the source): the new record replaces the metric's entry in the
active map, is appended to the history, and the oldest history record is
dropped when the log exceeds `maxHistory`. -/
def AlertManager.storeAlert (a : AlertManager) (metric : String)
    (alert : Alert) : AlertManager :=
  let history' := a.history ++ [alert]
  { a with
      alerts := insertKey a.alerts metric alert
      history :=
        if history'.length > a.maxHistory then history'.drop 1
        else history' }

/-- Method `CheckValue`: checks a value against the installed thresholds and
updates the active-alert map and the history log. The two `time.Now()` calls
are modelled by the explicit parameter `now`. -/
def AlertManager.CheckValue (a : AlertManager) (metric : String)
    (value : ℚ) (now : ℚ) : AlertManager :=
  if !a.enabled then a
  else
    match lookupKey a.thresholds metric with
    | none => a
    | some threshold =>
      let severity : AlertSeverity :=
        if value ≥ threshold.critical then .critical
        else if value ≥ threshold.warning then .warning
        else .info
      let alertMsg : String :=
        if value ≥ threshold.critical then
          criticalMsg metric value threshold.critical
        else if value ≥ threshold.warning then
          warningMsg metric value threshold.warning
        else ""
      if alertMsg ≠ "" then
        let alert : Alert :=
          { severity := severity
            message := alertMsg
            timestamp := now
            triggerTime := now
            value := value
            threshold := threshold.warning
            metric := metric }
        match lookupKey a.alerts metric with
        | some existing =>
          if existing.severity ≠ severity then a.storeAlert metric alert
          else a
        | none => a.storeAlert metric alert
      else
        match lookupKey a.alerts metric with
        | some _ =>
          if value < threshold.warning then
            { a with alerts := eraseKey a.alerts metric }
          else a
        | none => a

/-- Record built by `CheckValue` in the critical branch. -/
def criticalAlert (metric : String) (value now : ℚ)
    (th : ThresholdConfig) : Alert :=
  { severity := .critical
    message := criticalMsg metric value th.critical
    timestamp := now
    triggerTime := now
    value := value
    threshold := th.warning
    metric := metric }

/-- Record built by `CheckValue` in the warning branch. -/
def warningAlert (metric : String) (value now : ℚ)
    (th : ThresholdConfig) : Alert :=
  { severity := .warning
    message := warningMsg metric value th.warning
    timestamp := now
    triggerTime := now
    value := value
    threshold := th.warning
    metric := metric }

/-- Accessor `GetActiveAlerts`: copies the active alerts out of the map. -/
def AlertManager.GetActiveAlerts (a : AlertManager) : List Alert :=
  a.alerts.map Prod.snd

/-- Accessor `GetHistory`: copies the history log. -/
def AlertManager.GetHistory (a : AlertManager) : List Alert :=
  a.history

/-! ### History buffers

Embedding of `HistoryData` from `internal/data/system.go`. `maxSize` is a Go
`int`, modelled as `Int`; the stored samples are Go `float64` values,
modelled as rationals. -/

/-- Network receive/transmit history pair. -/
structure RxTxHistory where
  rx : List ℚ
  tx : List ℚ
  deriving DecidableEq, Repr

/-- Disk read/write history pair. -/
structure RWHistory where
  read : List ℚ
  write : List ℚ
  deriving DecidableEq, Repr

/-- HistoryData state; the field names follow the Go struct (`CPU`,
`Memory`, `Network`, `Disk`, `maxSize`). -/
structure HistoryData where
  cpu : List ℚ
  memory : List ℚ
  network : RxTxHistory
  disk : RWHistory
  maxSize : Int
  deriving DecidableEq, Repr

/-- Constructor `NewHistoryData`. -/
def NewHistoryData (maxSize : Int) : HistoryData :=
  { cpu := []
    memory := []
    network := { rx := [], tx := [] }
    disk := { read := [], write := [] }
    maxSize := maxSize }

/-- Method `appendAndTrim`: appends `value` and drops the head when the new
length exceeds `maxSize` (Go `slice = slice[1:]`). -/
def HistoryData.appendAndTrim (h : HistoryData) (slice : List ℚ)
    (value : ℚ) : List ℚ :=
  let slice' := slice ++ [value]
  if (slice'.length : Int) > h.maxSize then slice'.drop 1 else slice'

/-- Method `AddCPU`. -/
def HistoryData.AddCPU (h : HistoryData) (value : ℚ) : HistoryData :=
  { h with cpu := h.appendAndTrim h.cpu value }

/-- Method `GetLatestCPU`: most recent sample, or 0 when empty. -/
def HistoryData.GetLatestCPU (h : HistoryData) : ℚ :=
  if h.cpu.length = 0 then 0 else h.cpu.getLastD 0

/-! ### Disk and network collectors

Embedding of the rate bookkeeping of `DiskCollector` and
`NetworkCollector`. The Go fields `lastIO` (a map from device or interface
name to the counter struct) and `lastIOTime` become `lastIOMap` and
`lastIOTime`; counters are `uint64`, so the subtraction performed by the
disk collector wraps modulo `2 ^ 64`. The mutation performed at the end of
`Collect` (storing the freshly queried counter map and `time.Now()`) is
embedded as `storeCollect`, with the result of the OS query passed as a
parameter; `GetIORate` returns `none` where the Go method returns `nil`. -/

/-- Wrap-around subtraction of two `uint64` counter values. -/
def sub64 (a b : Nat) : Nat :=
  (a % 2 ^ 64 + 2 ^ 64 - b % 2 ^ 64) % 2 ^ 64

/-- Disk counter struct `disk.IOCountersStat` (the four fields read by
`GetIORate`). -/
structure DiskIOCountersStat where
  readBytes : Nat
  writeBytes : Nat
  readCount : Nat
  writeCount : Nat
  deriving DecidableEq, Repr

/-- Rate struct `IORate` produced by the disk collector. -/
structure IORate where
  readBytesPerSec : ℚ
  writeBytesPerSec : ℚ
  readCountPerSec : ℚ
  writeCountPerSec : ℚ
  deriving DecidableEq, Repr

/-- Rate-tracking state of `DiskCollector` (Go fields `lastIO`,
`lastIOTime`). -/
structure DiskCollectorState where
  lastIOMap : List (String × DiskIOCountersStat)
  lastIOTime : ℚ
  deriving DecidableEq, Repr

/-- Constructor `NewDiskCollector`, restricted to the rate-tracking state:
`lastIO` starts empty; `lastIOTime` is the zero `time.Time`. -/
def NewDiskCollectorState : DiskCollectorState :=
  { lastIOMap := [], lastIOTime := 0 }

/-- Store step of `DiskCollector.Collect` (disk.go lines 117–121): the
counter map returned by the OS query and the current instant overwrite the
previous sample. -/
def DiskCollectorState.storeCollect (_ : DiskCollectorState)
    (ioMap : List (String × DiskIOCountersStat)) (now : ℚ) :
    DiskCollectorState :=
  { lastIOMap := ioMap, lastIOTime := now }

/-- Method `DiskCollector.GetIORate`: for each device in `lastIO`, both
`currentIO` (the ranged value) and `lastIO` (the map lookup of the same
key in the same map) are read from `c.lastIO`, and the wrapped difference
is divided by the seconds elapsed since `lastIOTime`. -/
def DiskCollectorState.GetIORate (c : DiskCollectorState) (now : ℚ) :
    Option (List (String × IORate)) :=
  if c.lastIOMap.length = 0 then none
  else
    let elapsed := now - c.lastIOTime
    if elapsed = 0 then none
    else
      some (c.lastIOMap.filterMap (fun p =>
        match lookupKey c.lastIOMap p.1 with
        | some lastStat =>
          some (p.1,
            { readBytesPerSec :=
                ((sub64 p.2.readBytes lastStat.readBytes : Nat) : ℚ) / elapsed
              writeBytesPerSec :=
                ((sub64 p.2.writeBytes lastStat.writeBytes : Nat) : ℚ) / elapsed
              readCountPerSec :=
                ((sub64 p.2.readCount lastStat.readCount : Nat) : ℚ) / elapsed
              writeCountPerSec :=
                ((sub64 p.2.writeCount lastStat.writeCount : Nat) : ℚ) / elapsed })
        | none => none))

/-- Network counter struct `net.IOCountersStat` (the six fields read by
`GetIORate`). -/
structure NetIOCountersStat where
  bytesSent : Nat
  bytesRecv : Nat
  packetsSent : Nat
  packetsRecv : Nat
  errin : Nat
  errout : Nat
  deriving DecidableEq, Repr

/-- Rate struct `NetIORate` produced by the network collector. -/
structure NetIORate where
  bytesSentPerSec : ℚ
  bytesRecvPerSec : ℚ
  packetsSentPerSec : ℚ
  packetsRecvPerSec : ℚ
  errInPerSec : ℚ
  errOutPerSec : ℚ
  deriving DecidableEq, Repr

/-- Rate-tracking state of `NetworkCollector` (Go fields `lastIO`,
`lastIOTime`). -/
structure NetworkCollectorState where
  lastIOMap : List (String × NetIOCountersStat)
  lastIOTime : ℚ
  deriving DecidableEq, Repr

/-- Constructor `NewNetworkCollector`, restricted to the rate-tracking
state. -/
def NewNetworkCollectorState : NetworkCollectorState :=
  { lastIOMap := [], lastIOTime := 0 }

/-- Store step of `NetworkCollector.Collect` (lines 112–116 of the network
collector): the filtered counter map and the current instant overwrite the
previous sample. -/
def NetworkCollectorState.storeCollect (_ : NetworkCollectorState)
    (ioMap : List (String × NetIOCountersStat)) (now : ℚ) :
    NetworkCollectorState :=
  { lastIOMap := ioMap, lastIOTime := now }

/-- Method `NetworkCollector.GetIORate`: for each interface in `lastIO`,
the cumulative counter values themselves are divided by the seconds
elapsed since `lastIOTime`. -/
def NetworkCollectorState.GetIORate (c : NetworkCollectorState) (now : ℚ) :
    Option (List (String × NetIORate)) :=
  if c.lastIOMap.length = 0 then none
  else
    let elapsed := now - c.lastIOTime
    if elapsed = 0 then none
    else
      some (c.lastIOMap.map (fun p =>
        (p.1,
          { bytesSentPerSec := (p.2.bytesSent : ℚ) / elapsed
            bytesRecvPerSec := (p.2.bytesRecv : ℚ) / elapsed
            packetsSentPerSec := (p.2.packetsSent : ℚ) / elapsed
            packetsRecvPerSec := (p.2.packetsRecv : ℚ) / elapsed
            errInPerSec := (p.2.errin : ℚ) / elapsed
            errOutPerSec := (p.2.errout : ℚ) / elapsed })))

/-! ### Aggregator

Embedding of `Aggregator.collectFrom`: one collection cycle either fails
(the table is returned unchanged, after logging) or succeeds and stores the
result under the collector's name. The heterogeneous `map[string]any` table
is modelled as an association list over an arbitrary result type. -/

/-- Outcome of one `Collect` call: a result or an error. -/
inductive CollectOutcome (α : Type) where
  | ok (result : α)
  | err
  deriving DecidableEq, Repr

/-- Method `collectFrom` (aggregator.go lines 126–136): on error the update
is skipped entirely; on success the result is stored under
`collector.Name()`. -/
def collectFrom {α : Type} (table : List (String × α)) (name : String)
    (outcome : CollectOutcome α) : List (String × α) :=
  match outcome with
  | .err => table
  | .ok result => insertKey table name result

/-- Iterated collection cycles: each step names the collector that fired
and the outcome of its `Collect` call. -/
def runCollections {α : Type} (table : List (String × α))
    (steps : List (String × CollectOutcome α)) : List (String × α) :=
  steps.foldl (fun t s => collectFrom t s.1 s.2) table

/-! ### Shared lemmas about the embedded operations -/

theorem lookupKey_eq_none_of_not_mem {β : Type} (l : List (String × β))
    (k : String) (h : k ∉ l.map Prod.fst) : lookupKey l k = none := by
  induction l with
  | nil => rfl
  | cons hd tl ih =>
    obtain ⟨k₀, v₀⟩ := hd
    have h₁ : k₀ ≠ k := by
      intro he; exact h (by simp [he])
    have h₂ : k ∉ tl.map Prod.fst := by
      intro hm; exact h (by simp [hm])
    simp [lookupKey, h₁, ih h₂]

theorem lookupKey_eraseKey_self {β : Type} (l : List (String × β))
    (k : String) (hnd : (l.map Prod.fst).Nodup) :
    lookupKey (eraseKey l k) k = none := by
  induction l with
  | nil => rfl
  | cons hd tl ih =>
    obtain ⟨k₀, v₀⟩ := hd
    rw [List.map_cons, List.nodup_cons] at hnd
    by_cases h₀ : k₀ = k
    · subst h₀
      simpa [eraseKey] using lookupKey_eq_none_of_not_mem tl k₀ hnd.1
    · simp [eraseKey, h₀, ih hnd.2]

theorem warningMsg_ne_empty (m : String) (v t : ℚ) : warningMsg m v t ≠ "" := by
  unfold warningMsg
  intro h
  have hlen := congrArg String.length h
  simp [String.length_append] at hlen
  exact absurd hlen.2 (by decide)

theorem criticalMsg_ne_empty (m : String) (v t : ℚ) :
    criticalMsg m v t ≠ "" := by
  unfold criticalMsg
  intro h
  have hlen := congrArg String.length h
  simp [String.length_append] at hlen
  exact absurd hlen.2 (by decide)

theorem checkValue_crit_new (a : AlertManager) (metric : String)
    (value now : ℚ) (th : ThresholdConfig) (hen : a.enabled = true)
    (hth : lookupKey a.thresholds metric = some th)
    (hc : th.critical ≤ value)
    (hal : lookupKey a.alerts metric = none) :
    a.CheckValue metric value now =
      a.storeAlert metric (criticalAlert metric value now th) := by
  simp [AlertManager.CheckValue, hen, hth, hal, ge_iff_le, hc,
    criticalAlert, criticalMsg_ne_empty]

theorem checkValue_crit_diff (a : AlertManager) (metric : String)
    (value now : ℚ) (th : ThresholdConfig) (ex : Alert)
    (hen : a.enabled = true)
    (hth : lookupKey a.thresholds metric = some th)
    (hc : th.critical ≤ value)
    (hal : lookupKey a.alerts metric = some ex)
    (hsev : ex.severity ≠ .critical) :
    a.CheckValue metric value now =
      a.storeAlert metric (criticalAlert metric value now th) := by
  simp [AlertManager.CheckValue, hen, hth, hal, ge_iff_le, hc, hsev,
    criticalAlert, criticalMsg_ne_empty]

theorem checkValue_crit_same (a : AlertManager) (metric : String)
    (value now : ℚ) (th : ThresholdConfig) (ex : Alert)
    (hen : a.enabled = true)
    (hth : lookupKey a.thresholds metric = some th)
    (hc : th.critical ≤ value)
    (hal : lookupKey a.alerts metric = some ex)
    (hsev : ex.severity = .critical) :
    a.CheckValue metric value now = a := by
  simp [AlertManager.CheckValue, hen, hth, hal, ge_iff_le, hc, hsev,
    criticalMsg_ne_empty]

theorem checkValue_warn_new (a : AlertManager) (metric : String)
    (value now : ℚ) (th : ThresholdConfig) (hen : a.enabled = true)
    (hth : lookupKey a.thresholds metric = some th)
    (hw : th.warning ≤ value) (hc : value < th.critical)
    (hal : lookupKey a.alerts metric = none) :
    a.CheckValue metric value now =
      a.storeAlert metric (warningAlert metric value now th) := by
  simp [AlertManager.CheckValue, hen, hth, hal, ge_iff_le, hw, hc.not_le,
    warningAlert, warningMsg_ne_empty]

theorem checkValue_warn_diff (a : AlertManager) (metric : String)
    (value now : ℚ) (th : ThresholdConfig) (ex : Alert)
    (hen : a.enabled = true)
    (hth : lookupKey a.thresholds metric = some th)
    (hw : th.warning ≤ value) (hc : value < th.critical)
    (hal : lookupKey a.alerts metric = some ex)
    (hsev : ex.severity ≠ .warning) :
    a.CheckValue metric value now =
      a.storeAlert metric (warningAlert metric value now th) := by
  simp [AlertManager.CheckValue, hen, hth, hal, ge_iff_le, hw, hc.not_le,
    hsev, warningAlert, warningMsg_ne_empty]

theorem checkValue_warn_same (a : AlertManager) (metric : String)
    (value now : ℚ) (th : ThresholdConfig) (ex : Alert)
    (hen : a.enabled = true)
    (hth : lookupKey a.thresholds metric = some th)
    (hw : th.warning ≤ value) (hc : value < th.critical)
    (hal : lookupKey a.alerts metric = some ex)
    (hsev : ex.severity = .warning) :
    a.CheckValue metric value now = a := by
  simp [AlertManager.CheckValue, hen, hth, hal, ge_iff_le, hw, hc.not_le,
    hsev, warningMsg_ne_empty]

theorem checkValue_clear (a : AlertManager) (metric : String)
    (value now : ℚ) (th : ThresholdConfig) (ex : Alert)
    (hen : a.enabled = true)
    (hth : lookupKey a.thresholds metric = some th)
    (hw : value < th.warning) (hc : value < th.critical)
    (hal : lookupKey a.alerts metric = some ex) :
    a.CheckValue metric value now =
      { a with alerts := eraseKey a.alerts metric } := by
  simp [AlertManager.CheckValue, hen, hth, hal, ge_iff_le, hw,
    hw.not_le, hc.not_le]

theorem checkValue_normal_none (a : AlertManager) (metric : String)
    (value now : ℚ) (th : ThresholdConfig)
    (hen : a.enabled = true)
    (hth : lookupKey a.thresholds metric = some th)
    (hw : value < th.warning) (hc : value < th.critical)
    (hal : lookupKey a.alerts metric = none) :
    a.CheckValue metric value now = a := by
  simp [AlertManager.CheckValue, hen, hth, hal, ge_iff_le,
    hw.not_le, hc.not_le]

/-! ### Concrete runs used by the claims -/

/-- Manager with warning 70 and critical 90 installed for metric cpu. -/
def cpuMgr : AlertManager := NewAlertManager.SetThreshold "cpu" 70 90

/-- State after `CheckValue` at 75. -/
def cpuSeq1 : AlertManager := cpuMgr.CheckValue "cpu" 75 1

/-- State after `CheckValue` at 75 then 95. -/
def cpuSeq2 : AlertManager := cpuSeq1.CheckValue "cpu" 95 2

/-- State after `CheckValue` at 75, 95, 65. -/
def cpuSeq3 : AlertManager := cpuSeq2.CheckValue "cpu" 65 3

/-- State after `CheckValue` at 75, 95, 65, 72. -/
def cpuSeq4 : AlertManager := cpuSeq3.CheckValue "cpu" 72 4

/-! ### Claim theorems -/

/-- C10: when no threshold has been installed for the metric, `CheckValue`
is a no-op: the whole manager state — in particular the active-alert map
and the history log — is returned unchanged. -/
theorem checkValue_no_threshold_noop (a : AlertManager) (metric : String)
    (value now : ℚ)
    (hth : lookupKey a.thresholds metric = none) :
    a.CheckValue metric value now = a := by
  cases hen : a.enabled <;> simp [AlertManager.CheckValue, hen, hth]

/-- Witness for C10 at the freshly constructed manager and metric cpu. -/
theorem checkValue_no_threshold_noop_witness :
    lookupKey NewAlertManager.thresholds "cpu" = none ∧
    NewAlertManager.CheckValue "cpu" 50 0 = NewAlertManager :=
  ⟨rfl, checkValue_no_threshold_noop NewAlertManager "cpu" 50 0 rfl⟩

/-- C4: with warning 70 and critical 90 installed for cpu, the sequence
`CheckValue` 75, 95, 65, 72 produces an active Warning alert, then the same
metric's active alert at Critical, then no active alert, then a new Warning
alert recording value 72; after every step the active-alert set holds at
most one alert for cpu. -/
theorem alert_sequence_75_95_65_72 :
    (lookupKey cpuSeq1.alerts "cpu").map Alert.severity = some .warning ∧
    (lookupKey cpuSeq2.alerts "cpu").map Alert.severity = some .critical ∧
    lookupKey cpuSeq3.alerts "cpu" = none ∧
    (lookupKey cpuSeq4.alerts "cpu").map Alert.severity = some .warning ∧
    (lookupKey cpuSeq4.alerts "cpu").map Alert.value = some 72 ∧
    cpuSeq1.GetActiveAlerts.countP (fun al => al.metric = "cpu") ≤ 1 ∧
    cpuSeq2.GetActiveAlerts.countP (fun al => al.metric = "cpu") ≤ 1 ∧
    cpuSeq3.GetActiveAlerts.countP (fun al => al.metric = "cpu") ≤ 1 ∧
    cpuSeq4.GetActiveAlerts.countP (fun al => al.metric = "cpu") ≤ 1 := by
  decide

/-- C3 counterexample: with warning 70 and critical 90 on cpu, after
`CheckValue` 95 the active alert is Critical, and `CheckValue` 75 — a value
with warning ≤ 75 < critical — changes the active alert to Warning, so an
active Critical alert does not persist through the warning band. -/
theorem critical_falls_back_to_warning_cex :
    ((70 : ℚ) ≤ 75 ∧ (75 : ℚ) < 90) ∧
    (lookupKey (cpuMgr.CheckValue "cpu" 95 1).alerts "cpu").map
      Alert.severity = some .critical ∧
    (lookupKey ((cpuMgr.CheckValue "cpu" 95 1).CheckValue "cpu" 75 2).alerts
      "cpu").map Alert.severity = some .warning := by
  decide

/-- C3 (amended): for an enabled manager with a threshold installed for the
metric, a duplicate-free active-alert map, and an active alert on the
metric: a value below the warning threshold clears the alert; a value at or
above the warning threshold never clears it (the metric keeps an active
alert, so dropping below the warning threshold is the only way out); and a
value with warning ≤ value < critical seen by an active Critical alert
replaces it with an active Warning alert (Critical falls back to Warning
through the warning band). -/
theorem checkValue_active_alert_exit_rules (a : AlertManager)
    (metric : String) (value now : ℚ) (th : ThresholdConfig) (al : Alert)
    (hen : a.enabled = true)
    (hth : lookupKey a.thresholds metric = some th)
    (hal : lookupKey a.alerts metric = some al)
    (hnd : (a.alerts.map Prod.fst).Nodup)
    (hwc : th.warning ≤ th.critical) :
    (value < th.warning →
      lookupKey (a.CheckValue metric value now).alerts metric = none) ∧
    (th.warning ≤ value →
      (lookupKey (a.CheckValue metric value now).alerts metric).isSome
        = true) ∧
    (th.warning ≤ value → value < th.critical → al.severity = .critical →
      (lookupKey (a.CheckValue metric value now).alerts metric).map
        Alert.severity = some .warning) := by
  refine ⟨?_, ?_, ?_⟩
  · intro hv
    rw [checkValue_clear a metric value now th al hen hth hv
      (lt_of_lt_of_le hv hwc) hal]
    exact lookupKey_eraseKey_self a.alerts metric hnd
  · intro hw
    by_cases hc : th.critical ≤ value
    · by_cases hsev : al.severity = .critical
      · rw [checkValue_crit_same a metric value now th al hen hth hc hal
          hsev, hal]
        rfl
      · rw [checkValue_crit_diff a metric value now th al hen hth hc hal
          hsev]
        simp [AlertManager.storeAlert, lookupKey_insertKey]
    · have hcv : value < th.critical := not_le.mp hc
      by_cases hsev : al.severity = .warning
      · rw [checkValue_warn_same a metric value now th al hen hth hw hcv hal
          hsev, hal]
        rfl
      · rw [checkValue_warn_diff a metric value now th al hen hth hw hcv hal
          hsev]
        simp [AlertManager.storeAlert, lookupKey_insertKey]
  · intro hw hc hsev
    rw [checkValue_warn_diff a metric value now th al hen hth hw hc hal
      (by rw [hsev]; decide)]
    simp [AlertManager.storeAlert, lookupKey_insertKey, warningAlert]

/-- Witness for C3's amended theorem at the state holding a Critical cpu
alert, exercising the clearing value 65, the persisting value 95, and the
warning-band value 75. -/
theorem checkValue_active_alert_exit_rules_witness :
    lookupKey (cpuSeq2.CheckValue "cpu" 65 3).alerts "cpu" = none ∧
    (lookupKey (cpuSeq2.CheckValue "cpu" 95 3).alerts "cpu").isSome
      = true ∧
    (lookupKey (cpuSeq2.CheckValue "cpu" 75 3).alerts "cpu").map
      Alert.severity = some .warning :=
  ⟨(checkValue_active_alert_exit_rules cpuSeq2 "cpu" 65 3 ⟨70, 90⟩
      (criticalAlert "cpu" 95 2 ⟨70, 90⟩) (by decide) (by decide) (by decide)
      (by decide) (by decide)).1 (by decide),
   (checkValue_active_alert_exit_rules cpuSeq2 "cpu" 95 3 ⟨70, 90⟩
      (criticalAlert "cpu" 95 2 ⟨70, 90⟩) (by decide) (by decide) (by decide)
      (by decide) (by decide)).2.1 (by decide),
   (checkValue_active_alert_exit_rules cpuSeq2 "cpu" 75 3 ⟨70, 90⟩
      (criticalAlert "cpu" 95 2 ⟨70, 90⟩) (by decide) (by decide) (by decide)
      (by decide) (by decide)).2.2 (by decide) (by decide) (by decide)⟩

theorem getLast_append_singleton {α : Type} (l : List α) (x : α) :
    (l ++ [x]).getLast? = some x := by
  simp

theorem storeAlert_history_getLast (a : AlertManager) (metric : String)
    (al : Alert) (hmax : 0 < a.maxHistory) :
    (a.storeAlert metric al).history.getLast? = some al := by
  simp only [AlertManager.storeAlert]
  split_ifs with hgt
  · cases hh : a.history with
    | nil =>
      rw [hh] at hgt
      simp at hgt
      omega
    | cons x xs =>
      have hdrop : List.drop 1 ((x :: xs) ++ [al]) = xs ++ [al] := rfl
      rw [hdrop]
      exact getLast_append_singleton xs al
  · exact getLast_append_singleton a.history al

theorem storeAlert_history_length (a : AlertManager) (metric : String)
    (al : Alert) (hlen : a.history.length ≤ a.maxHistory) :
    (a.storeAlert metric al).history.length ≤ a.maxHistory := by
  simp only [AlertManager.storeAlert]
  split_ifs with hgt
  · simp
    omega
  · simp at hgt ⊢
    omega

/-- C5 counterexample: `CheckValue` 75 raises a Warning alert for cpu and
appends one record to the history; the subsequent `CheckValue` 65 clears
the active alert — a transition out of an alert state — yet the history
log is left unchanged at one record, not two. -/
theorem clear_does_not_append_history_cex :
    (lookupKey cpuSeq1.alerts "cpu").isSome = true ∧
    cpuSeq1.GetHistory.length = 1 ∧
    lookupKey (cpuSeq1.CheckValue "cpu" 65 2).alerts "cpu" = none ∧
    (cpuSeq1.CheckValue "cpu" 65 2).GetHistory.length = 1 := by
  decide

/-- C5 (amended): for an enabled manager with a threshold installed for the
metric and a history log within its bound: the log stays within
`maxHistory` after `CheckValue`; clearing an active alert appends nothing
to the log; and a transition into an alert state — creating a Warning or
Critical alert, or changing the severity of the active one — appends
exactly one record, evicting the oldest record when the log is at
capacity. -/
theorem checkValue_history_bounds (a : AlertManager) (metric : String)
    (value now : ℚ) (th : ThresholdConfig)
    (hen : a.enabled = true)
    (hth : lookupKey a.thresholds metric = some th)
    (hlen : a.history.length ≤ a.maxHistory) :
    ((a.CheckValue metric value now).history.length ≤ a.maxHistory) ∧
    (∀ ex, lookupKey a.alerts metric = some ex → value < th.warning →
      value < th.critical →
      (a.CheckValue metric value now).history = a.history) ∧
    (th.warning ≤ value → value < th.critical →
      (∀ ex, lookupKey a.alerts metric = some ex → ex.severity ≠ .warning) →
      (a.CheckValue metric value now).history =
        if a.history.length + 1 > a.maxHistory
        then (a.history ++ [warningAlert metric value now th]).drop 1
        else a.history ++ [warningAlert metric value now th]) ∧
    (th.critical ≤ value →
      (∀ ex, lookupKey a.alerts metric = some ex → ex.severity ≠ .critical) →
      (a.CheckValue metric value now).history =
        if a.history.length + 1 > a.maxHistory
        then (a.history ++ [criticalAlert metric value now th]).drop 1
        else a.history ++ [criticalAlert metric value now th]) := by
  refine ⟨?_, ?_, ?_, ?_⟩
  · by_cases hc : th.critical ≤ value
    · cases hal : lookupKey a.alerts metric with
      | none =>
        rw [checkValue_crit_new a metric value now th hen hth hc hal]
        exact storeAlert_history_length a metric _ hlen
      | some ex =>
        by_cases hsev : ex.severity = .critical
        · rw [checkValue_crit_same a metric value now th ex hen hth hc hal
            hsev]
          exact hlen
        · rw [checkValue_crit_diff a metric value now th ex hen hth hc hal
            hsev]
          exact storeAlert_history_length a metric _ hlen
    · have hcv : value < th.critical := not_le.mp hc
      by_cases hw : th.warning ≤ value
      · cases hal : lookupKey a.alerts metric with
        | none =>
          rw [checkValue_warn_new a metric value now th hen hth hw hcv hal]
          exact storeAlert_history_length a metric _ hlen
        | some ex =>
          by_cases hsev : ex.severity = .warning
          · rw [checkValue_warn_same a metric value now th ex hen hth hw hcv
              hal hsev]
            exact hlen
          · rw [checkValue_warn_diff a metric value now th ex hen hth hw hcv
              hal hsev]
            exact storeAlert_history_length a metric _ hlen
      · have hwv : value < th.warning := not_le.mp hw
        cases hal : lookupKey a.alerts metric with
        | none =>
          rw [checkValue_normal_none a metric value now th hen hth hwv hcv
            hal]
          exact hlen
        | some ex =>
          rw [checkValue_clear a metric value now th ex hen hth hwv hcv hal]
          exact hlen
  · intro ex hal hwv hcv
    rw [checkValue_clear a metric value now th ex hen hth hwv hcv hal]
  · intro hw hcv hdiff
    have hstore : a.CheckValue metric value now =
        a.storeAlert metric (warningAlert metric value now th) := by
      cases hal : lookupKey a.alerts metric with
      | none => exact checkValue_warn_new a metric value now th hen hth hw hcv hal
      | some ex =>
        exact checkValue_warn_diff a metric value now th ex hen hth hw hcv hal
          (hdiff ex hal)
    rw [hstore]
    simp [AlertManager.storeAlert]
  · intro hc hdiff
    have hstore : a.CheckValue metric value now =
        a.storeAlert metric (criticalAlert metric value now th) := by
      cases hal : lookupKey a.alerts metric with
      | none => exact checkValue_crit_new a metric value now th hen hth hc hal
      | some ex =>
        exact checkValue_crit_diff a metric value now th ex hen hth hc hal
          (hdiff ex hal)
    rw [hstore]
    simp [AlertManager.storeAlert]

/-- Witness for C5's amended theorem at the state holding a Warning cpu
alert: the log stays bounded, the clearing value 65 appends nothing, and
the severity change at 95 appends exactly one record. -/
theorem checkValue_history_bounds_witness :
    ((cpuSeq1.CheckValue "cpu" 95 2).history.length ≤ cpuSeq1.maxHistory) ∧
    (cpuSeq1.CheckValue "cpu" 65 2).history = cpuSeq1.history ∧
    (cpuSeq1.CheckValue "cpu" 95 2).history =
      cpuSeq1.history ++ [criticalAlert "cpu" 95 2 ⟨70, 90⟩] :=
  ⟨(checkValue_history_bounds cpuSeq1 "cpu" 95 2 ⟨70, 90⟩ (by decide)
      (by decide) (by decide)).1,
   (checkValue_history_bounds cpuSeq1 "cpu" 65 2 ⟨70, 90⟩ (by decide)
      (by decide) (by decide)).2.1 (warningAlert "cpu" 75 1 ⟨70, 90⟩)
      (by decide) (by decide) (by decide),
   by
    have h := (checkValue_history_bounds cpuSeq1 "cpu" 95 2 ⟨70, 90⟩
      (by decide) (by decide) (by decide)).2.2.2 (by decide) ?hdiff
    case hdiff =>
      intro ex hex
      rw [show lookupKey cpuSeq1.alerts "cpu" =
        some (warningAlert "cpu" 75 1 ⟨70, 90⟩) from by decide] at hex
      injection hex with hex
      rw [← hex]
      decide
    rw [h]
    decide⟩

/-- C6 counterexample: with warning 70 and critical 90 installed for cpu,
the alert created at Critical severity by `CheckValue` 95 stores threshold
70 — the warning threshold — although the installed critical threshold is
90. -/
theorem critical_alert_records_warning_threshold_cex :
    lookupKey cpuSeq2.thresholds "cpu" = some ⟨70, 90⟩ ∧
    (lookupKey cpuSeq2.alerts "cpu").map Alert.severity = some .critical ∧
    (lookupKey cpuSeq2.alerts "cpu").map Alert.threshold = some 70 ∧
    (70 : ℚ) ≠ 90 := by
  decide

/-- C6 (amended): every alert record created by `CheckValue` — stored in
the active map and appended as the latest history record — carries the
metric identifier, the computed severity, the triggering value, the
trigger timestamp, and the installed *warning* threshold, also when the
record is created at Critical severity. -/
theorem checkValue_created_alert_fields (a : AlertManager) (metric : String)
    (value now : ℚ) (th : ThresholdConfig)
    (hen : a.enabled = true)
    (hth : lookupKey a.thresholds metric = some th)
    (hmax : 0 < a.maxHistory) :
    (th.critical ≤ value →
      (∀ ex, lookupKey a.alerts metric = some ex → ex.severity ≠ .critical) →
      ∃ al, lookupKey (a.CheckValue metric value now).alerts metric = some al
        ∧ (a.CheckValue metric value now).history.getLast? = some al
        ∧ al.metric = metric ∧ al.value = value ∧ al.triggerTime = now
        ∧ al.severity = .critical ∧ al.threshold = th.warning) ∧
    (th.warning ≤ value → value < th.critical →
      (∀ ex, lookupKey a.alerts metric = some ex → ex.severity ≠ .warning) →
      ∃ al, lookupKey (a.CheckValue metric value now).alerts metric = some al
        ∧ (a.CheckValue metric value now).history.getLast? = some al
        ∧ al.metric = metric ∧ al.value = value ∧ al.triggerTime = now
        ∧ al.severity = .warning ∧ al.threshold = th.warning) := by
  constructor
  · intro hc hdiff
    have hstore : a.CheckValue metric value now =
        a.storeAlert metric (criticalAlert metric value now th) := by
      cases hal : lookupKey a.alerts metric with
      | none => exact checkValue_crit_new a metric value now th hen hth hc hal
      | some ex =>
        exact checkValue_crit_diff a metric value now th ex hen hth hc hal
          (hdiff ex hal)
    refine ⟨criticalAlert metric value now th, ?_, ?_, rfl, rfl, rfl, rfl,
      rfl⟩
    · rw [hstore]
      simp [AlertManager.storeAlert, lookupKey_insertKey]
    · rw [hstore]
      exact storeAlert_history_getLast a metric _ hmax
  · intro hw hcv hdiff
    have hstore : a.CheckValue metric value now =
        a.storeAlert metric (warningAlert metric value now th) := by
      cases hal : lookupKey a.alerts metric with
      | none => exact checkValue_warn_new a metric value now th hen hth hw hcv hal
      | some ex =>
        exact checkValue_warn_diff a metric value now th ex hen hth hw hcv hal
          (hdiff ex hal)
    refine ⟨warningAlert metric value now th, ?_, ?_, rfl, rfl, rfl, rfl,
      rfl⟩
    · rw [hstore]
      simp [AlertManager.storeAlert, lookupKey_insertKey]
    · rw [hstore]
      exact storeAlert_history_getLast a metric _ hmax

/-- Witness for C6's amended theorem: creating a Critical alert at value 95
on the manager with warning 70 and critical 90 installed and no active
alerts. -/
theorem checkValue_created_alert_fields_witness :
    ∃ al, lookupKey (cpuMgr.CheckValue "cpu" 95 1).alerts "cpu" = some al
      ∧ (cpuMgr.CheckValue "cpu" 95 1).history.getLast? = some al
      ∧ al.metric = "cpu" ∧ al.value = 95 ∧ al.triggerTime = 1
      ∧ al.severity = .critical ∧ al.threshold = 70 :=
  (checkValue_created_alert_fields cpuMgr "cpu" 95 1 ⟨70, 90⟩ (by decide)
    (by decide) (by decide)).1 (by decide)
    (fun ex hex => by
      rw [show lookupKey cpuMgr.alerts "cpu" = none from rfl] at hex
      cases hex)

theorem addCPU_maxSize (h : HistoryData) (v : ℚ) :
    (h.AddCPU v).maxSize = h.maxSize := rfl

theorem addCPU_length_le (h : HistoryData) (v : ℚ)
    (hle : (h.cpu.length : Int) ≤ h.maxSize) :
    (((h.AddCPU v).cpu.length : Int)) ≤ h.maxSize := by
  simp only [HistoryData.AddCPU, HistoryData.appendAndTrim]
  split_ifs with hgt
  · simp
    omega
  · simp at hgt ⊢
    omega

theorem foldl_addCPU_invariant (vs : List ℚ) (h : HistoryData)
    (hle : (h.cpu.length : Int) ≤ h.maxSize) :
    (vs.foldl HistoryData.AddCPU h).maxSize = h.maxSize ∧
    (((vs.foldl HistoryData.AddCPU h).cpu.length : Int)) ≤ h.maxSize := by
  induction vs generalizing h with
  | nil => exact ⟨rfl, hle⟩
  | cons v rest ih =>
    obtain ⟨hmax, hlen2⟩ := ih (h.AddCPU v) (addCPU_length_le h v hle)
    simp only [List.foldl_cons]
    exact ⟨hmax, hlen2⟩

/-- C7: the history buffer never exceeds its capacity for any pushed
sequence; a push at capacity evicts the oldest element; pushing 1, 2, 3, 4
into a capacity-3 buffer stores 2, 3, 4 with latest value 4; and the latest
value of an empty buffer is the defined default 0. -/
theorem history_buffer_capacity :
    (∀ (h : HistoryData) (vs : List ℚ),
      (h.cpu.length : Int) ≤ h.maxSize →
      (((vs.foldl HistoryData.AddCPU h).cpu.length : Int)) ≤ h.maxSize) ∧
    (∀ (h : HistoryData) (l : List ℚ) (v : ℚ), l ≠ [] →
      (l.length : Int) = h.maxSize →
      h.appendAndTrim l v = l.tail ++ [v]) ∧
    (((((NewHistoryData 3).AddCPU 1).AddCPU 2).AddCPU 3).AddCPU 4).cpu
      = [2, 3, 4] ∧
    (((((NewHistoryData 3).AddCPU 1).AddCPU 2).AddCPU 3).AddCPU 4).GetLatestCPU
      = 4 ∧
    (NewHistoryData 3).GetLatestCPU = 0 := by
  refine ⟨?_, ?_, by decide, by decide, by decide⟩
  · intro h vs hle
    exact (foldl_addCPU_invariant vs h hle).2
  · intro h l v hne hcap
    cases l with
    | nil => exact absurd rfl hne
    | cons x xs =>
      have hgt : (((x :: xs) ++ [v]).length : Int) > h.maxSize := by
        rw [← hcap]
        simp [List.length_append]
      simp only [HistoryData.appendAndTrim]
      rw [if_pos hgt]
      rfl

/-- Witness for C7 at concrete buffers: two pushes into a capacity-3 buffer
stay within the bound, and a push into a full capacity-2 buffer evicts the
oldest element. -/
theorem history_buffer_capacity_witness :
    ((((([5, 6] : List ℚ).foldl HistoryData.AddCPU
      (NewHistoryData 3)).cpu.length : Int)) ≤ 3) ∧
    (NewHistoryData 2).appendAndTrim [7, 8] 9 = [8, 9] :=
  ⟨history_buffer_capacity.1 (NewHistoryData 3) [5, 6] (by decide),
   history_buffer_capacity.2.1 (NewHistoryData 2) [7, 8] 9 (by decide)
     (by decide)⟩

theorem lookupKey_collectFrom_isSome {α : Type} (table : List (String × α))
    (name : String) (o : CollectOutcome α) (d : String)
    (h : (lookupKey table d).isSome = true) :
    (lookupKey (collectFrom table name o) d).isSome = true := by
  cases o with
  | err => exact h
  | ok r =>
    simp only [collectFrom]
    rw [lookupKey_insertKey]
    by_cases hnd : name = d
    · simp [hnd]
    · simp [hnd, h]

/-- C8: a collection cycle that returns an error leaves the aggregator's
table entirely unchanged, and for every sequence of successful and failed
collection cycles, a domain that holds a stored value never loses it. -/
theorem collect_error_skips_update (α : Type) :
    (∀ (table : List (String × α)) (name : String),
      collectFrom table name CollectOutcome.err = table) ∧
    (∀ (steps : List (String × CollectOutcome α))
        (table : List (String × α)) (d : String) (r : α),
      lookupKey table d = some r →
      (lookupKey (runCollections table steps) d).isSome = true) := by
  constructor
  · intro table name
    rfl
  · intro steps
    induction steps with
    | nil =>
      intro table d r h
      simp [runCollections, h]
    | cons s rest ih =>
      intro table d r h
      have hstep := lookupKey_collectFrom_isSome table s.1 s.2 d
        (by simp [h])
      obtain ⟨r', hr'⟩ := Option.isSome_iff_exists.mp hstep
      simpa [runCollections] using
        ih (collectFrom table s.1 s.2) d r' hr'

/-- Witness for C8 with a natural-number result table: a failing cpu cycle
leaves the table unchanged, and cpu's entry survives an error cycle, an
unrelated update and a cpu update. -/
theorem collect_error_skips_update_witness :
    collectFrom [("cpu", (1 : ℕ))] "cpu" CollectOutcome.err = [("cpu", 1)] ∧
    (lookupKey (runCollections [("cpu", (1 : ℕ))]
      [("cpu", CollectOutcome.err), ("memory", CollectOutcome.ok 2),
        ("cpu", CollectOutcome.ok 3)]) "cpu").isSome = true :=
  ⟨(collect_error_skips_update ℕ).1 [("cpu", 1)] "cpu",
    (collect_error_skips_update ℕ).2
      [("cpu", CollectOutcome.err), ("memory", CollectOutcome.ok 2),
        ("cpu", CollectOutcome.ok 3)] [("cpu", 1)] "cpu" 1 rfl⟩

/-! ### Concrete collector runs for the rate claims -/

/-- Disk collector state after storing counter 100 (every field) for device
sda at t = 0 and counter 150 at t = 5. -/
def diskSeq100150 : DiskCollectorState :=
  (NewDiskCollectorState.storeCollect [("sda", ⟨100, 100, 100, 100⟩)]
    0).storeCollect [("sda", ⟨150, 150, 150, 150⟩)] 5

/-- Network collector state after storing counter 100 for interface eth0 at
t = 0 and counter 150 at t = 5. -/
def netSeq100150 : NetworkCollectorState :=
  (NewNetworkCollectorState.storeCollect
    [("eth0", ⟨100, 100, 100, 100, 100, 100⟩)] 0).storeCollect
    [("eth0", ⟨150, 150, 150, 150, 150, 150⟩)] 5

/-- Disk collector state after storing counter 150 for sda at t = 0 and the
reset counter 100 at t = 5. -/
def diskSeq150100 : DiskCollectorState :=
  (NewDiskCollectorState.storeCollect [("sda", ⟨150, 150, 150, 150⟩)]
    0).storeCollect [("sda", ⟨100, 100, 100, 100⟩)] 5

/-- Network collector state after storing counter 150 for eth0 at t = 0 and
the reset counter 100 at t = 5. -/
def netSeq150100 : NetworkCollectorState :=
  (NewNetworkCollectorState.storeCollect
    [("eth0", ⟨150, 150, 150, 150, 150, 150⟩)] 0).storeCollect
    [("eth0", ⟨100, 100, 100, 100, 100, 100⟩)] 5

/-- C1 (the code evaluated at the failing input): after counter samples 100
at t = 0 and 150 at t = 5, `GetIORate` at t = 10 — five seconds after the
latest sample — emits 0 for every disk rate, because the method subtracts
the stored map from itself, and 30 = 150 / 5 for every network rate,
because the cumulative counter itself is divided by the elapsed time;
neither equals the (current − previous) / elapsed = 10 per second the
specification requires. -/
theorem getIORate_counter_100_150_eval :
    diskSeq100150.GetIORate 10 = some [("sda", ⟨0, 0, 0, 0⟩)] ∧
    netSeq100150.GetIORate 10 = some [("eth0", ⟨30, 30, 30, 30, 30, 30⟩)] ∧
    (0 : ℚ) ≠ 10 ∧ (30 : ℚ) ≠ 10 := by
  refine ⟨?_, ?_, by norm_num, by norm_num⟩
  · rw [show diskSeq100150 =
      { lastIOMap := [("sda", ⟨150, 150, 150, 150⟩)], lastIOTime := 5 }
      from rfl]
    simp [DiskCollectorState.GetIORate, lookupKey, sub64]
    norm_num
  · rw [show netSeq100150 =
      { lastIOMap := [("eth0", ⟨150, 150, 150, 150, 150, 150⟩)],
        lastIOTime := 5 } from rfl]
    simp [NetworkCollectorState.GetIORate]
    norm_num

/-- C2 (the code evaluated at the failing input): after the counter
sequence 150 then 100 — a counter reset — `GetIORate` still emits a rate
entry for the device and the interface (0 for disk, 20 = 100 / 5 for the
network) instead of suppressing emission for the cycle. -/
theorem getIORate_counter_reset_eval :
    diskSeq150100.GetIORate 10 = some [("sda", ⟨0, 0, 0, 0⟩)] ∧
    netSeq150100.GetIORate 10 = some [("eth0", ⟨20, 20, 20, 20, 20, 20⟩)] := by
  constructor
  · rw [show diskSeq150100 =
      { lastIOMap := [("sda", ⟨100, 100, 100, 100⟩)], lastIOTime := 5 }
      from rfl]
    simp [DiskCollectorState.GetIORate, lookupKey, sub64]
    norm_num
  · rw [show netSeq150100 =
      { lastIOMap := [("eth0", ⟨100, 100, 100, 100, 100, 100⟩)],
        lastIOTime := 5 } from rfl]
    simp [NetworkCollectorState.GetIORate]
    norm_num

end MetricsTui
